import Mathlib

/-!
Verification of src/physics/ohms_law.py.

The function ohms_law takes three parameters, voltage, current and
resistance, each either a number or None, and is meant to compute the
missing quantity via V = I * R.  We embed it shallowly: a parameter is
an Option ℚ, with none standing for Python None, and the result is an
Except value.  Python 3 runtime semantics is modelled faithfully:

- the comparison x < 0 raises a TypeError when x is None, which we model
  by the pyLt0 helper returning an error;
- division by a zero denominator raises ZeroDivisionError, modelled by
  the divisionByZero error of pyDiv;
- applying an arithmetic operator to None raises a TypeError, modelled
  by pyDiv and pyMul.

Numeric values are rationals: every quantity exercised by the
specification is exactly representable, and the control flow of the
source depends only on comparisons and exact arithmetic.
-/

/-- The three circuit quantities named by the result dictionary. -/
inductive OhmField
  | voltage
  | current
  | resistance
  deriving DecidableEq, Repr

/-- The errors the Python function can raise, one constructor per
distinguishable runtime error: the two ValueError messages of the
source (argument count, negative value with the offending field), the
ZeroDivisionError of a zero denominator, and the TypeError produced by
comparing or combining None with a number. -/
inductive OhmsError
  | invalidArgumentCount
  | negativeValue (f : OhmField)
  | divisionByZero
  | typeError
  deriving DecidableEq, Repr

/-- Embeds the count of provided parameters from line 54 of the source:
sum of (param is not None) over the list of the three parameters. -/
def countProvided (voltage current resistance : Option ℚ) : Nat :=
  [voltage, current, resistance].countP Option.isSome

/-- Embeds the Python 3 comparison x < 0: a TypeError when x is None,
otherwise the boolean comparison of the value with zero. -/
def pyLt0 : Option ℚ → Except OhmsError Bool
  | none => Except.error OhmsError.typeError
  | some x => Except.ok (decide (x < 0))

/-- Embeds Python 3 division a / b on optional operands: a TypeError if
an operand is None, ZeroDivisionError if the denominator is zero,
otherwise the exact quotient. -/
def pyDiv : Option ℚ → Option ℚ → Except OhmsError ℚ
  | some a, some b =>
      if b = 0 then Except.error OhmsError.divisionByZero
      else Except.ok (a / b)
  | _, _ => Except.error OhmsError.typeError

/-- Embeds Python 3 multiplication a * b on optional operands: a
TypeError if an operand is None, otherwise the exact product. -/
def pyMul : Option ℚ → Option ℚ → Except OhmsError ℚ
  | some a, some b => Except.ok (a * b)
  | _, _ => Except.error OhmsError.typeError

/-- Embeds ohms_law from src/physics/ohms_law.py, statement by
statement: the argument-count guard of lines 54-57, the three
negativity checks of lines 60-65 in source order (current, voltage,
resistance), and the computation of lines 68-79 selecting a branch by
which parameter is None, with the trailing else returning None
(modelled as Except.ok none). -/
def ohms_law (voltage current resistance : Option ℚ) :
    Except OhmsError (Option (OhmField × ℚ)) :=
  if countProvided voltage current resistance ≠ 2 then
    Except.error OhmsError.invalidArgumentCount
  else
    match pyLt0 current with
    | Except.error e => Except.error e
    | Except.ok true => Except.error (OhmsError.negativeValue OhmField.current)
    | Except.ok false =>
      match pyLt0 voltage with
      | Except.error e => Except.error e
      | Except.ok true => Except.error (OhmsError.negativeValue OhmField.voltage)
      | Except.ok false =>
        match pyLt0 resistance with
        | Except.error e => Except.error e
        | Except.ok true => Except.error (OhmsError.negativeValue OhmField.resistance)
        | Except.ok false =>
          match current with
          | none =>
            match pyDiv voltage resistance with
            | Except.error e => Except.error e
            | Except.ok c => Except.ok (some (OhmField.current, c))
          | some _ =>
            match voltage with
            | none =>
              match pyMul current resistance with
              | Except.error e => Except.error e
              | Except.ok v => Except.ok (some (OhmField.voltage, v))
            | some _ =>
              match resistance with
              | none =>
                match pyDiv voltage current with
                | Except.error e => Except.error e
                | Except.ok r => Except.ok (some (OhmField.resistance, r))
              | some _ => Except.ok none

/-- A parameter that is provided (some value) and negative; used to
state the claims about the negativity precondition. -/
def providedNegative (x : Option ℚ) : Prop :=
  ∃ q, x = some q ∧ q < 0

/-- When all three parameters are provided, the count is three. -/
theorem countProvided_all_some (a b c : ℚ) :
    countProvided (some a) (some b) (some c) = 3 := rfl

/-- Central fact about the source as written: ohms_law never returns
normally, on any input.  If the argument count differs from two the
count guard raises; if it equals two, one parameter is None, and the
negativity checks of lines 60-65 reach the comparison None < 0 of that
parameter (a TypeError) unless an earlier provided parameter is
negative (a ValueError).  Either way an error is raised before any
computation branch runs. -/
theorem ohms_law_isError (v i r : Option ℚ) :
    ∃ e, ohms_law v i r = Except.error e := by
  by_cases h : countProvided v i r ≠ 2
  · exact ⟨OhmsError.invalidArgumentCount, by unfold ohms_law; rw [if_pos h]⟩
  · rcases i with _ | b
    · exact ⟨OhmsError.typeError, by unfold ohms_law; rw [if_neg h]; rfl⟩
    · by_cases hb : b < 0
      · refine ⟨OhmsError.negativeValue OhmField.current, ?_⟩
        unfold ohms_law
        rw [if_neg h]
        simp [pyLt0, hb]
      · rcases v with _ | a
        · refine ⟨OhmsError.typeError, ?_⟩
          unfold ohms_law
          rw [if_neg h]
          simp [pyLt0, hb]
        · by_cases ha : a < 0
          · refine ⟨OhmsError.negativeValue OhmField.voltage, ?_⟩
            unfold ohms_law
            rw [if_neg h]
            simp [pyLt0, hb, ha]
          · rcases r with _ | c
            · refine ⟨OhmsError.typeError, ?_⟩
              unfold ohms_law
              rw [if_neg h]
              simp [pyLt0, hb, ha]
            · exact absurd (countProvided_all_some a b c) (by omega)

/-- Claim C1: the specification says that with exactly two non-negative
parameters provided the function returns a one-entry mapping for the
missing field; in particular voltage None, current 2, resistance 4
should give voltage 8.  The code instead raises a TypeError: the
negativity check of line 62 evaluates None < 0 on the absent voltage
before any computation branch is reached.  This theorem records the
actual result of the code at that failing input. -/
theorem c1_code_result :
    ohms_law none (some 2) (some 4) = Except.error OhmsError.typeError := rfl

/-- Claim C2: the specification says the unknown parameter never
triggers the negativity check and no error arises from the absent field
itself.  In the code the absent field itself is compared with zero: for
voltage 9, current None, resistance 3 the check of line 60 evaluates
None < 0 on the absent current and raises a TypeError.  This theorem
records the actual result of the code at that failing input. -/
theorem c2_code_result :
    ohms_law (some 9) none (some 3) = Except.error OhmsError.typeError := rfl

/-- Claim C3: whenever the count of provided parameters differs from
two, the function raises the InvalidArgumentCount error of lines
54-57. -/
theorem c3_invalid_count (v i r : Option ℚ)
    (h : countProvided v i r ≠ 2) :
    ohms_law v i r = Except.error OhmsError.invalidArgumentCount := by
  unfold ohms_law
  rw [if_pos h]

/-- Witness for C3 at the two inputs of the specification: three
parameters provided, and only voltage provided. -/
theorem c3_invalid_count_witness :
    (countProvided (some 9) (some 3) (some 3) ≠ 2 ∧
      ohms_law (some 9) (some 3) (some 3) =
        Except.error OhmsError.invalidArgumentCount) ∧
    (countProvided (some 9) none none ≠ 2 ∧
      ohms_law (some 9) none none =
        Except.error OhmsError.invalidArgumentCount) :=
  ⟨⟨by decide, c3_invalid_count (some 9) (some 3) (some 3) (by decide)⟩,
   ⟨by decide, c3_invalid_count (some 9) none none (by decide)⟩⟩

/-- Claim C4: the specification says that with exactly two provided
parameters, any negative provided parameter yields a NegativeValue
error naming the first negative field in the order current, voltage,
resistance.  The code violates this: with voltage 1, current None,
resistance -3 the check order reaches the absent current first and
line 60 raises a TypeError from None < 0, never reporting the negative
resistance.  This theorem records the actual result of the code at that
failing input, an error that is not a NegativeValue. -/
theorem c4_code_result :
    ohms_law (some 1) none (some (-3)) = Except.error OhmsError.typeError ∧
      ∀ f, ohms_law (some 1) none (some (-3)) ≠
        Except.error (OhmsError.negativeValue f) := by
  refine ⟨rfl, fun f hf => ?_⟩
  rw [show ohms_law (some 1) none (some (-3)) =
    Except.error OhmsError.typeError from rfl] at hf
  simp at hf

/-- Claim C5: the specification says that computing resistance with
current 0 raises DivisionByZero, and that voltage None, current 2,
resistance 0 returns voltage 0.  The code does neither: in both cases
the negativity checks reach the absent parameter and raise a TypeError
from None < 0 before any division or multiplication runs.  This theorem
records the actual result of the code at both inputs. -/
theorem c5_code_result :
    ohms_law (some 5) (some 0) none = Except.error OhmsError.typeError ∧
      ohms_law none (some 2) (some 0) = Except.error OhmsError.typeError :=
  ⟨rfl, rfl⟩

/-- Claim C6: the argument-count check of lines 54-57 runs before the
negativity checks of lines 60-65, so on any input violating both
preconditions the function raises InvalidArgumentCount and never
NegativeValue. -/
theorem c6_count_checked_first (v i r : Option ℚ)
    (h : countProvided v i r ≠ 2)
    (hneg : providedNegative v ∨ providedNegative i ∨ providedNegative r) :
    ohms_law v i r = Except.error OhmsError.invalidArgumentCount ∧
      ∀ f, ohms_law v i r ≠ Except.error (OhmsError.negativeValue f) := by
  have h1 : ohms_law v i r = Except.error OhmsError.invalidArgumentCount := by
    unfold ohms_law
    rw [if_pos h]
  refine ⟨h1, fun f hf => ?_⟩
  rw [h1] at hf
  simp at hf

/-- Witness for C6: all three parameters provided and voltage
negative raises InvalidArgumentCount, not NegativeValue. -/
theorem c6_count_checked_first_witness :
    countProvided (some (-5)) (some 3) (some 3) ≠ 2 ∧
      (providedNegative (some (-5 : ℚ)) ∨ providedNegative (some (3 : ℚ)) ∨
        providedNegative (some (3 : ℚ))) ∧
      ohms_law (some (-5)) (some 3) (some 3) =
        Except.error OhmsError.invalidArgumentCount ∧
      ∀ f, ohms_law (some (-5)) (some 3) (some 3) ≠
        Except.error (OhmsError.negativeValue f) :=
  ⟨by decide, Or.inl ⟨-5, rfl, by norm_num⟩,
    c6_count_checked_first (some (-5)) (some 3) (some 3) (by decide)
      (Or.inl ⟨-5, rfl, by norm_num⟩)⟩

/-- Claim C7: the round-trip property says ohms_law with voltage None,
current i, resistance v / i returns voltage i * (v / i) = v.  The code
never returns at all: at v = 6, i = 2 (so resistance 3) the negativity
check of line 62 raises a TypeError from None < 0 on the absent voltage
instead of returning voltage 6.  This theorem records the actual result
of the code at that failing input. -/
theorem c7_code_result :
    ohms_law none (some 2) (some 3) = Except.error OhmsError.typeError ∧
      ohms_law none (some 2) (some 3) ≠
        Except.ok (some (OhmField.voltage, 6)) := by
  refine ⟨rfl, fun hf => ?_⟩
  rw [show ohms_law none (some 2) (some 3) =
    Except.error OhmsError.typeError from rfl] at hf
  exact Except.noConfusion hf

/-- Claim C8: the function is deterministic and pure: two calls with
identical inputs yield identical results.  The embedding is a total
function of its three parameters, mirroring the source, which reads
nothing but its parameters and touches no external state. -/
theorem c8_deterministic (v i r v2 i2 r2 : Option ℚ)
    (hv : v = v2) (hi : i = i2) (hr : r = r2) :
    ohms_law v i r = ohms_law v2 i2 r2 := by
  subst hv
  subst hi
  subst hr
  rfl

/-- Witness for C8 at a concrete input. -/
theorem c8_deterministic_witness :
    ohms_law (some 12) (some 3) none = ohms_law (some 12) (some 3) none :=
  c8_deterministic (some 12) (some 3) none (some 12) (some 3) none rfl rfl rfl

/-- Claim C9: a violated precondition is always surfaced as an error
result, never as a silent default, a partial success or a returned
mapping, and the three errors of the taxonomy are pairwise
distinguishable values of the error type. -/
theorem c9_typed_errors (v i r : Option ℚ)
    (h : countProvided v i r ≠ 2 ∨
      providedNegative v ∨ providedNegative i ∨ providedNegative r) :
    (∃ e, ohms_law v i r = Except.error e) ∧
      (∀ x, ohms_law v i r ≠ Except.ok x) ∧
      (∀ f, OhmsError.invalidArgumentCount ≠ OhmsError.negativeValue f) ∧
      OhmsError.invalidArgumentCount ≠ OhmsError.divisionByZero ∧
      (∀ f, OhmsError.negativeValue f ≠ OhmsError.divisionByZero) := by
  obtain ⟨e, he⟩ := ohms_law_isError v i r
  refine ⟨⟨e, he⟩, fun x hx => ?_, fun f => by simp, by simp, fun f => by simp⟩
  rw [he] at hx
  exact Except.noConfusion hx

/-- Witness for C9 at a concrete input violating the count
precondition. -/
theorem c9_typed_errors_witness :
    (∃ e, ohms_law none (some 4) none = Except.error e) ∧
      (∀ x, ohms_law none (some 4) none ≠ Except.ok x) ∧
      (∀ f, OhmsError.invalidArgumentCount ≠ OhmsError.negativeValue f) ∧
      OhmsError.invalidArgumentCount ≠ OhmsError.divisionByZero ∧
      (∀ f, OhmsError.negativeValue f ≠ OhmsError.divisionByZero) :=
  c9_typed_errors none (some 4) none (Or.inl (by decide))

/-- Claim C10 as stated is false: it asserts that every input passing
the argument-count check takes exactly one computation branch and
returns a one-key mapping.  The input voltage 12, current 3, resistance
None passes the count check yet no computation branch runs: the
negativity check raises a TypeError from None < 0 on the absent
resistance, so no mapping is ever produced. -/
theorem c10_counterexample :
    ¬ ∀ v i r : Option ℚ, countProvided v i r = 2 →
        ∃ p : OhmField × ℚ, ohms_law v i r = Except.ok (some p) := by
  intro h
  obtain ⟨p, hp⟩ := h (some 12) (some 3) none rfl
  rw [show ohms_law (some 12) (some 3) none =
    Except.error OhmsError.typeError from rfl] at hp
  exact Except.noConfusion hp

/-- Claim C10 amended: the function indeed never returns None, and more
strongly never returns normally at all: the trailing else of line 79 is
unreachable (it would need all three parameters provided, which the
count check rejects), and every input that passes the count check
raises an error during the negativity checks before any computation
branch is taken. -/
theorem c10_never_returns_none (v i r : Option ℚ)
    (x : Option (OhmField × ℚ)) :
    ohms_law v i r ≠ Except.ok x ∧ ohms_law v i r ≠ Except.ok none := by
  obtain ⟨e, he⟩ := ohms_law_isError v i r
  rw [he]
  exact ⟨fun hx => Except.noConfusion hx, fun hx => Except.noConfusion hx⟩
